import Mathlib

/-!
Verification of `ipaserver/install/adtrustinstance.py` against its design
specification: NetBIOS name derivation and validation, SID string generation,
RID-base allocation, the installation step orchestrator, and the
state-store-driven uninstall behaviour for the oddjobd service.

Python strings are modelled as Lean `String` (lists of characters), LDAP
attribute reads (`entry.single_value.get(...)`) as `Option String`, and
machine integers as `Int`/`Nat` (Python integers are unbounded).
-/

/-- `ALLOWED_NETBIOS_CHARS = string.ascii_uppercase + string.digits` (line 49). -/
def ALLOWED_NETBIOS_CHARS : List Char :=
  "ABCDEFGHIJKLMNOPQRSTUVWXYZ0123456789".toList

/-- `s.split('.')[0]`: the characters of `s` before the first dot. -/
def firstDotLabel : List Char → List Char
  | [] => []
  | c :: cs => if c = '.' then [] else c :: firstDotLabel cs

/-- `make_netbios_name` (lines 96-98): first label of the name, uppercased,
restricted to `ALLOWED_NETBIOS_CHARS`, truncated to 15 characters. -/
def make_netbios_name (s : String) : String :=
  String.mk ((((firstDotLabel s.data).map Char.toUpper).filter
    (fun c => decide (c ∈ ALLOWED_NETBIOS_CHARS))).take 15)

/-- `check_netbios_name` (lines 88-94): `False` when the name is empty, longer
than 15 characters, or the disallowed characters joined up are non-empty. -/
def check_netbios_name (s : String) : Bool :=
  if s.data = [] ∨ 15 < s.data.length ∨
      (s.data.filter fun c => decide (c ∉ ALLOWED_NETBIOS_CHARS)) ≠ []
  then false
  else true

/-- The spec's `[A-Z0-9]` character class, read off the code points. -/
def specAllowedChar (c : Char) : Bool :=
  (decide ('A' ≤ c) && decide (c ≤ 'Z')) || (decide ('0' ≤ c) && decide (c ≤ '9'))

/-- The spec's wording of the derivation: split on the first separator,
uppercase, filter to `[A-Z0-9]`, truncate to 15. -/
def derive_netbios_spec (s : String) : String :=
  String.mk ((((s.data.takeWhile fun c => decide (c ≠ '.')).map Char.toUpper).filter
    specAllowedChar).take 15)

theorem firstDotLabel_eq_takeWhile (l : List Char) :
    firstDotLabel l = l.takeWhile fun c => decide (c ≠ '.') := by
  induction l with
  | nil => rfl
  | cons c cs ih =>
    by_cases h : c = '.'
    · simp [firstDotLabel, List.takeWhile, h]
    · simp [firstDotLabel, List.takeWhile, h, ih]

theorem mem_allowed_iff_specAllowedChar (c : Char) :
    decide (c ∈ ALLOWED_NETBIOS_CHARS) = specAllowedChar c := by
  by_cases h : c ∈ ALLOWED_NETBIOS_CHARS
  · have hs : specAllowedChar c = true :=
      (by decide : ∀ a ∈ ALLOWED_NETBIOS_CHARS, specAllowedChar a = true) c h
    simp [h, hs]
  · have hs : specAllowedChar c = false := by
      by_contra hne
      apply h
      have hb : specAllowedChar c = true := by
        cases hx : specAllowedChar c
        · exact absurd hx hne
        · rfl
      have hofn : Char.ofNat c.toNat = c := Char.ofNat_toNat c
      rcases Bool.or_eq_true_iff.mp (by rw [← specAllowedChar]; exact hb) with h1 | h2
      · have hA : 'A' ≤ c := of_decide_eq_true (Bool.and_eq_true_iff.mp h1).1
        have hZ : c ≤ 'Z' := of_decide_eq_true (Bool.and_eq_true_iff.mp h1).2
        have hA' : 65 ≤ c.toNat := hA
        have hZ' : c.toNat ≤ 90 := hZ
        rw [← hofn]
        set n := c.toNat with hn
        interval_cases n <;> decide
      · have h0 : '0' ≤ c := of_decide_eq_true (Bool.and_eq_true_iff.mp h2).1
        have h9 : c ≤ '9' := of_decide_eq_true (Bool.and_eq_true_iff.mp h2).2
        have h0' : 48 ≤ c.toNat := h0
        have h9' : c.toNat ≤ 57 := h9
        rw [← hofn]
        set n := c.toNat with hn
        interval_cases n <;> decide
    simp [h, hs]

/-- C4: `make_netbios_name` coincides, on every input, with the spec's
pipeline — first label (the part before the first dot), uppercased, every
character outside `[A-Z0-9]` removed, truncated to 15 characters — and its
output never exceeds 15 characters. Being a Lean function, it is pure,
deterministic and total (the empty string is a possible output). -/
theorem make_netbios_name_correct (s : String) :
    make_netbios_name s = derive_netbios_spec s ∧
    (make_netbios_name s).length ≤ 15 := by
  constructor
  · unfold make_netbios_name derive_netbios_spec
    rw [firstDotLabel_eq_takeWhile]
    congr 1
    congr 1
    apply List.filter_congr
    intro c _
    exact mem_allowed_iff_specAllowedChar c
  · show (List.take 15 _).length ≤ 15
    rw [List.length_take]
    omega

/-- C5 (counterexample to the spec's scenario): the hyphen is not in
`[A-Z0-9]`, so deriving a NetBIOS name from "example-corp.test.local" cannot
return "EXAMPLE-CORP". -/
theorem make_netbios_name_example_ne :
    make_netbios_name "example-corp.test.local" ≠ "EXAMPLE-CORP" := by decide

/-- C5 (amended): NetBIOS derivation of "example-corp.test.local" returns
"EXAMPLECORP" (the hyphen is filtered out), and the candidate
"this-name-is-too-long-to-fit" fails the validity predicate. -/
theorem make_netbios_name_example :
    make_netbios_name "example-corp.test.local" = "EXAMPLECORP" ∧
    check_netbios_name "this-name-is-too-long-to-fit" = false := by
  exact ⟨by decide, by decide⟩

/-- C9: the validity predicate accepts exactly the non-empty strings of length
at most 15 all of whose characters lie in `[A-Z0-9]`. -/
theorem check_netbios_name_iff (s : String) :
    check_netbios_name s = true ↔
      s.data ≠ [] ∧ s.data.length ≤ 15 ∧ ∀ c ∈ s.data, specAllowedChar c = true := by
  have hfilter : ((s.data.filter fun c => decide (c ∉ ALLOWED_NETBIOS_CHARS)) = []) ↔
      ∀ c ∈ s.data, specAllowedChar c = true := by
    rw [List.filter_eq_nil_iff]
    constructor
    · intro h c hc
      have hm := h c hc
      rw [← mem_allowed_iff_specAllowedChar]
      simpa using hm
    · intro h c hc
      have hs := h c hc
      rw [← mem_allowed_iff_specAllowedChar] at hs
      simpa using hs
  unfold check_netbios_name
  split
  · next hcond =>
      constructor
      · intro hf; simp at hf
      · rintro ⟨h1, h2, h3⟩
        rcases hcond with h | h | h
        · exact absurd h h1
        · omega
        · exact absurd (hfilter.mpr h3) h
  · next hcond =>
      push_neg at hcond
      obtain ⟨h1, h2, h3⟩ := hcond
      exact ⟨fun _ => ⟨h1, by omega, hfilter.mp h3⟩, fun _ => rfl⟩

/-- One `L` of `struct.unpack("<LLL", ...)`: a little-endian unsigned 32-bit
value from 4 bytes (first byte least significant). -/
def leUInt32 (bs : List Nat) : Nat :=
  bs.foldr (fun b acc => b + 256 * acc) 0

/-- `__gen_sid_string` (lines 181-183), with the 12 bytes `os.urandom(12)`
produced made an explicit input: unpack them as three little-endian unsigned
32-bit integers and format `"S-1-5-21-%d-%d-%d"`. Any other input length is
rejected (`struct.unpack` requires exactly 12 bytes). -/
def gen_sid_string (bytes : List Nat) : Option String :=
  if bytes.length = 12 then
    some ("S-1-5-21-" ++ toString (leUInt32 (bytes.take 4)) ++ "-" ++
          toString (leUInt32 ((bytes.drop 4).take 4)) ++ "-" ++
          toString (leUInt32 (bytes.drop 8)))
  else none

/-- C6: for every 12-byte input, the generated security identifier is
`"S-1-5-21-<a>-<b>-<c>"` where `a`, `b`, `c` are the three unsigned 32-bit
integers obtained by reading the bytes as three little-endian 32-bit values,
and each of them fits in 32 bits. -/
theorem gen_sid_string_le_bytes
    (b0 b1 b2 b3 b4 b5 b6 b7 b8 b9 b10 b11 : Nat)
    (h0 : b0 < 256) (h1 : b1 < 256) (h2 : b2 < 256) (h3 : b3 < 256)
    (h4 : b4 < 256) (h5 : b5 < 256) (h6 : b6 < 256) (h7 : b7 < 256)
    (h8 : b8 < 256) (h9 : b9 < 256) (h10 : b10 < 256) (h11 : b11 < 256) :
    gen_sid_string [b0, b1, b2, b3, b4, b5, b6, b7, b8, b9, b10, b11] =
      some ("S-1-5-21-" ++
            toString (b0 + 256 * b1 + 65536 * b2 + 16777216 * b3) ++ "-" ++
            toString (b4 + 256 * b5 + 65536 * b6 + 16777216 * b7) ++ "-" ++
            toString (b8 + 256 * b9 + 65536 * b10 + 16777216 * b11)) ∧
      b0 + 256 * b1 + 65536 * b2 + 16777216 * b3 < 4294967296 ∧
      b4 + 256 * b5 + 65536 * b6 + 16777216 * b7 < 4294967296 ∧
      b8 + 256 * b9 + 65536 * b10 + 16777216 * b11 < 4294967296 := by
  refine ⟨?_, by omega, by omega, by omega⟩
  have e1 : leUInt32 [b0, b1, b2, b3] =
      b0 + 256 * b1 + 65536 * b2 + 16777216 * b3 := by
    simp [leUInt32]; ring
  have e2 : leUInt32 [b4, b5, b6, b7] =
      b4 + 256 * b5 + 65536 * b6 + 16777216 * b7 := by
    simp [leUInt32]; ring
  have e3 : leUInt32 [b8, b9, b10, b11] =
      b8 + 256 * b9 + 65536 * b10 + 16777216 * b11 := by
    simp [leUInt32]; ring
  simp only [gen_sid_string, List.length_cons, List.length_nil, if_pos]
  rw [show ([b0, b1, b2, b3, b4, b5, b6, b7, b8, b9, b10, b11].take 4)
        = [b0, b1, b2, b3] from rfl,
      show (([b0, b1, b2, b3, b4, b5, b6, b7, b8, b9, b10, b11].drop 4).take 4)
        = [b4, b5, b6, b7] from rfl,
      show ([b0, b1, b2, b3, b4, b5, b6, b7, b8, b9, b10, b11].drop 8)
        = [b8, b9, b10, b11] from rfl,
      e1, e2, e3]

/-- C6 witness: the theorem applied to the concrete byte string
`01 00 00 00 02 00 00 00 03 00 00 00`. -/
theorem gen_sid_string_le_bytes_witness :
    gen_sid_string [1, 0, 0, 0, 2, 0, 0, 0, 3, 0, 0, 0] =
      some "S-1-5-21-1-2-3" := by
  have h := (gen_sid_string_le_bytes 1 0 0 0 2 0 0 0 3 0 0 0
    (by omega) (by omega) (by omega) (by omega) (by omega) (by omega)
    (by omega) (by omega) (by omega) (by omega) (by omega) (by omega)).1
  rw [h]
  rfl

/-- Python truthiness of an optional LDAP attribute value as returned by
`entry.single_value.get(...)`: `None` and the empty string are falsy. -/
def pyTruthy : Option String → Bool
  | none => false
  | some v => decide (v ≠ "")

/-- An `ipaDomainIDRange` directory entry, reduced to the attributes
`__add_rid_bases` reads. `ipaIDRangeSize` is kept as the numeric range size. -/
structure IDRange where
  ipaBaseRID : Option String
  ipaSecondaryBaseRID : Option String
  ipaIDRangeSize : Int
deriving DecidableEq

/-- `no_rid_base_set` (lines 328-330): neither RID base attribute is set. -/
def no_rid_base_set (r : IDRange) : Bool :=
  !(pyTruthy r.ipaBaseRID || pyTruthy r.ipaSecondaryBaseRID)

/-- How a run of `__add_rid_bases` ends: return normally with nothing to do,
one of the three `RuntimeError`s, or return normally after the modify. -/
inductive RidOutcome
  | alreadyConfigured
  | tooManyCandidateRanges
  | basesTooClose
  | constraintViolation
  | committed
deriving DecidableEq

/-- Outcomes that raise (`RuntimeError`) in `__add_rid_bases`;
`alreadyConfigured` and `committed` return normally. -/
def ridOutcomeFatal : RidOutcome → Bool
  | .alreadyConfigured => false
  | .committed => false
  | _ => true

/-- The verdict of the directory backend (the ipa-range-check DS plugin) on
the `modify_s` call, an external collaborator input. -/
inductive BackendReply
  | ok
  | constraintViolation
deriving DecidableEq

/-- A committed `modify_s` call adding both RID bases to a range (line 358). -/
structure RidMod where
  range : IDRange
  ipaBaseRID : Int
  ipaSecondaryBaseRID : Int
deriving DecidableEq

/-- `__add_rid_bases` (lines 314-371): filter the ranges to those with no RID
base set; zero left → nothing to do; more than one → "Too many ID ranges";
otherwise raise "RID bases too close" when
`abs(rid_base - secondary_rid_base) > size` (the comparison exactly as written
on line 349), else issue the modify, surfacing a backend
`CONSTRAINT_VIOLATION` as its own error. Returns the outcome and the list of
committed modifications. -/
def add_rid_bases (ranges : List IDRange) (rid_base secondary_rid_base : Int)
    (backend : BackendReply) : RidOutcome × List RidMod :=
  match ranges.filter no_rid_base_set with
  | [] => (.alreadyConfigured, [])
  | local_range :: rest =>
    if rest ≠ [] then (.tooManyCandidateRanges, [])
    else if |rid_base - secondary_rid_base| > local_range.ipaIDRangeSize then
      (.basesTooClose, [])
    else
      match backend with
      | .constraintViolation => (.constraintViolation, [])
      | .ok => (.committed, [⟨local_range, rid_base, secondary_rid_base⟩])

/-- C1 (code bug, line 349): on the spec's committing scenario — one candidate
range of size 200000, `rid_base = 1000000`, `secondary_rid_base = 1300000`,
separation 300000 > 200000 — the code raises "RID bases too close." and
commits nothing, while with `secondary_rid_base = 1100000` (separation
100000 ≤ 200000) it commits both bases: the comparison `abs(...) > size`
inverts the check announced by the code's own error message ("They have to
differ at least by %d."). -/
theorem add_rid_bases_check_inverted :
    add_rid_bases [⟨none, none, 200000⟩] 1000000 1300000 .ok =
      (.basesTooClose, []) ∧
    add_rid_bases [⟨none, none, 200000⟩] 1000000 1100000 .ok =
      (.committed, [⟨⟨none, none, 200000⟩, 1000000, 1100000⟩]) := by
  exact ⟨by decide, by decide⟩

/-- C2: with zero candidate ranges the step reports "already configured" and
returns normally (not an error) committing nothing, and with two or more
candidates it fails with the too-many-candidate-ranges error, committing
nothing. -/
theorem add_rid_bases_zero_or_many (ranges : List IDRange) (p s : Int)
    (backend : BackendReply) :
    ((ranges.filter no_rid_base_set).length = 0 →
      add_rid_bases ranges p s backend = (.alreadyConfigured, []) ∧
      ridOutcomeFatal .alreadyConfigured = false) ∧
    (2 ≤ (ranges.filter no_rid_base_set).length →
      add_rid_bases ranges p s backend = (.tooManyCandidateRanges, []) ∧
      ridOutcomeFatal .tooManyCandidateRanges = true) := by
  constructor
  · intro h
    rw [List.length_eq_zero] at h
    simp only [add_rid_bases, h]
    exact ⟨trivial, rfl⟩
  · intro h
    rcases hf : ranges.filter no_rid_base_set with _ | ⟨a, _ | ⟨b, t⟩⟩
    · rw [hf] at h; simp at h
    · rw [hf] at h; simp at h
    · simp only [add_rid_bases, hf]
      refine ⟨?_, rfl⟩
      simp

/-- C2 witness: one range with its primary RID base already set (zero
candidates), and two fully unset ranges (two candidates). -/
theorem add_rid_bases_zero_or_many_witness :
    add_rid_bases [⟨some "1000", none, 200000⟩] 0 0 .ok =
      (.alreadyConfigured, []) ∧
    add_rid_bases [⟨none, none, 200000⟩, ⟨none, none, 200000⟩] 0 0 .ok =
      (.tooManyCandidateRanges, []) :=
  ⟨((add_rid_bases_zero_or_many [⟨some "1000", none, 200000⟩] 0 0 .ok).1
      (by decide)).1,
   ((add_rid_bases_zero_or_many [⟨none, none, 200000⟩, ⟨none, none, 200000⟩]
      0 0 .ok).2 (by decide)).1⟩

/-- C8: with exactly one candidate range and the commit gate passed, a
backend-reported constraint violation is surfaced as `constraintViolation` —
an error distinct from `basesTooClose` — and nothing is committed. -/
theorem add_rid_bases_constraint_violation (ranges : List IDRange)
    (p s : Int) (r : IDRange)
    (hone : ranges.filter no_rid_base_set = [r])
    (hgate : ¬ |p - s| > r.ipaIDRangeSize) :
    add_rid_bases ranges p s .constraintViolation =
      (.constraintViolation, []) ∧
    RidOutcome.constraintViolation ≠ RidOutcome.basesTooClose ∧
    ridOutcomeFatal .constraintViolation = true := by
  refine ⟨?_, by decide, rfl⟩
  simp only [add_rid_bases, hone]
  simp [hgate]

/-- C8 witness: a single unset range of size 200000 whose commit gate passes,
with the backend rejecting the write. -/
theorem add_rid_bases_constraint_violation_witness :
    add_rid_bases [⟨none, none, 200000⟩] 1000000 1100000
      .constraintViolation = (.constraintViolation, []) ∧
    RidOutcome.constraintViolation ≠ RidOutcome.basesTooClose ∧
    ridOutcomeFatal .constraintViolation = true :=
  add_rid_bases_constraint_violation [⟨none, none, 200000⟩] 1000000 1100000
    ⟨none, none, 200000⟩ (by decide) (by decide)

/-- Modelled from the spec: a step of the installation sequence — the
orchestrator (`service.Service.step`/`start_creation`) lives in
`ipaserver/install/service.py`, outside this file's sources. A step carries a
human-readable label and a zero-argument action; the opaque action is
modelled by its outcome (`fails = true` means it reports a fatal error). -/
structure Step where
  label : String
  fails : Bool
deriving DecidableEq

/-- Result of running a step sequence: success, or the first fatal failure
carrying the offending step's label. -/
inductive RunResult
  | success
  | failure (label : String)
deriving DecidableEq

/-- Modelled from the spec (§4.1 Step Orchestrator): execute the steps
strictly in list order, stop immediately at the first fatal failure and
propagate that step's label; later steps never run. Returns the labels of the
steps that executed together with the result. -/
def run_steps : List Step → List String × RunResult
  | [] => ([], .success)
  | s :: rest =>
    if s.fails then ([s.label], .failure s.label)
    else
      let r := run_steps rest
      (s.label :: r.1, r.2)

/-- The step labels registered by `create_instance`, in order
(lines 831-866); the two flag-dependent steps are included exactly when their
flag is set. -/
def create_instance_labels (enable_compat add_sids : Bool) : List String :=
  ["stopping smbd",
   "creating samba domain object",
   "creating samba config registry",
   "writing samba config file",
   "adding cifs Kerberos principal",
   "adding cifs and host Kerberos principals to the adtrust agents group",
   "check for cifs services defined on other replicas",
   "adding cifs principal to S4U2Proxy targets",
   "adding admin(group) SIDs",
   "adding RID bases",
   "updating Kerberos config",
   "activating CLDAP plugin",
   "activating sidgen task",
   "configuring smbd to start on boot",
   "adding special DNS service records"] ++
  (if enable_compat then
    ["enabling trusted domains support for older clients via Schema Compatibility plugin"]
   else []) ++
  ["restarting Directory Server to take MS PAC and LDAP plugins changes into account",
   "adding fallback group",
   "adding Default Trust View",
   "setting SELinux booleans",
   "enabling oddjobd",
   "starting CIFS services"] ++
  (if add_sids then ["adding SIDs to existing users and groups"] else [])

/-- The step sequence built by `create_instance`, each opaque action modelled
by its outcome through `outcome`. -/
def create_instance_steps (enable_compat add_sids : Bool)
    (outcome : String → Bool) : List Step :=
  (create_instance_labels enable_compat add_sids).map fun l => ⟨l, outcome l⟩

theorem run_steps_first_failure (steps : List Step) (k : Nat) (stepk : Step)
    (hget : steps.get? k = some stepk)
    (hbefore : (steps.take k).all (fun s => !s.fails) = true)
    (hfail : stepk.fails = true) :
    run_steps steps =
      ((steps.take (k + 1)).map Step.label, .failure stepk.label) := by
  induction steps generalizing k with
  | nil => simp at hget
  | cons s rest ih =>
    cases k with
    | zero =>
      simp only [List.get?] at hget
      cases hget
      simp [run_steps, hfail]
    | succ k =>
      simp only [List.get?] at hget
      rw [List.take_succ_cons, List.all_cons] at hbefore
      obtain ⟨hs, hrest⟩ := Bool.and_eq_true_iff.mp hbefore
      have hsf : s.fails = false := by
        cases hx : s.fails
        · rfl
        · rw [hx] at hs; simp at hs
      rw [List.take_succ_cons, List.map_cons]
      simp only [run_steps, hsf]
      rw [ih k hget hrest]
      simp

/-- C3: for every step sequence built by `create_instance` (any flag settings,
any action outcomes) and every index `k`, if every step before `k` succeeds
and step `k` reports a fatal error, then exactly steps `0..k` execute (step
`k` runs and fails), no later step runs, and the propagated failure names
step `k`'s label. -/
theorem create_instance_first_failure (enable_compat add_sids : Bool)
    (outcome : String → Bool) (k : Nat) (stepk : Step)
    (hget : (create_instance_steps enable_compat add_sids outcome).get? k =
      some stepk)
    (hbefore : ((create_instance_steps enable_compat add_sids outcome).take
      k).all (fun s => !s.fails) = true)
    (hfail : stepk.fails = true) :
    run_steps (create_instance_steps enable_compat add_sids outcome) =
      (((create_instance_steps enable_compat add_sids outcome).take
        (k + 1)).map Step.label, .failure stepk.label) :=
  run_steps_first_failure _ k stepk hget hbefore hfail

/-- C3 witness: both flags off and only the action of step 9 of 21,
"adding RID bases", failing: exactly the first ten steps execute and the
failure names "adding RID bases". -/
theorem create_instance_first_failure_witness :
    run_steps (create_instance_steps false false
        (fun l => decide (l = "adding RID bases"))) =
      (["stopping smbd",
        "creating samba domain object",
        "creating samba config registry",
        "writing samba config file",
        "adding cifs Kerberos principal",
        "adding cifs and host Kerberos principals to the adtrust agents group",
        "check for cifs services defined on other replicas",
        "adding cifs principal to S4U2Proxy targets",
        "adding admin(group) SIDs",
        "adding RID bases"],
       .failure "adding RID bases") :=
  create_instance_first_failure false false
    (fun l => decide (l = "adding RID bases")) 9 ⟨"adding RID bases", true⟩
    (by decide) (by decide) rfl

/-- The sysrestore state store (`self.sstore`): a keyed map from
(module, state name) to the backed-up boolean; `none` means no record. -/
def SState : Type := String → String → Option Bool

/-- `sysrestore.StateFile.restore_state`: return the stored value and delete
the record; when no record exists, return `None` and leave the store as is. -/
def restore_state (st : SState) (m k : String) : Option Bool × SState :=
  (st m k, fun m' k' => if m' = m ∧ k' = k then none else st m' k')

/-- The running/enabled flags of a system service. -/
structure ServiceFlags where
  running : Bool
  enabled : Bool
deriving DecidableEq

/-- Python `not x` applied to a restored value: `None` (absent) and `False`
are both falsy. -/
def pyNotOpt : Option Bool → Bool
  | none => true
  | some b => !b

/-- The oddjobd part of `uninstall` (lines 889-902):
`if not self.sstore.restore_state('oddjobd', 'running'): oddjobd.stop()` and
`if not self.sstore.restore_state('oddjobd', 'enabled'): oddjobd.disable()`.
Takes the store and oddjobd's current flags; returns the resulting flags and
store. -/
def uninstall_oddjobd (st : SState) (oddjobd : ServiceFlags) :
    ServiceFlags × SState :=
  let r1 := restore_state st "oddjobd" "running"
  let odd1 := if pyNotOpt r1.1 then { oddjobd with running := false }
              else oddjobd
  let r2 := restore_state r1.2 "oddjobd" "enabled"
  let odd2 := if pyNotOpt r2.1 then { odd1 with enabled := false }
              else odd1
  (odd2, r2.2)

/-- C7 (counterexample): with no stored record for either oddjobd key —
restore reports the absent sentinel — uninstall nevertheless stops and
disables a running, enabled oddjobd instead of leaving it untouched. -/
theorem uninstall_oddjobd_absent_mutates :
    ((fun _ _ => none : SState) "oddjobd" "running" = none) ∧
    ((fun _ _ => none : SState) "oddjobd" "enabled" = none) ∧
    (uninstall_oddjobd (fun _ _ => none) ⟨true, true⟩).1 ≠ ⟨true, true⟩ := by
  refine ⟨rfl, rfl, ?_⟩
  intro h
  simp [uninstall_oddjobd, restore_state, pyNotOpt] at h

/-- C7 (amended): uninstall treats an absent restore result for oddjobd like
a stored `False`: the service is stopped (resp. disabled) both when the
record is absent and when it stored `false`; the current flag is left
untouched exactly when the stored value is `true`. -/
theorem uninstall_oddjobd_restore (st : SState) (odd : ServiceFlags) :
    (uninstall_oddjobd st odd).1.running =
      (match st "oddjobd" "running" with
       | some true => odd.running
       | _ => false) ∧
    (uninstall_oddjobd st odd).1.enabled =
      (match st "oddjobd" "enabled" with
       | some true => odd.enabled
       | _ => false) := by
  have hkey : ("enabled" = "running") = False := by simp
  constructor
  · rcases hr : st "oddjobd" "running" with _ | b
    · simp [uninstall_oddjobd, restore_state, pyNotOpt, hr]
      split <;> rfl
    · cases b <;>
        simp [uninstall_oddjobd, restore_state, pyNotOpt, hr] <;>
        split <;> rfl
  · rcases hr : st "oddjobd" "running" with _ | b <;>
      rcases he : st "oddjobd" "enabled" with _ | b'
    all_goals try cases b
    all_goals try cases b'
    all_goals simp [uninstall_oddjobd, restore_state, pyNotOpt, hr, he, hkey]

/-- A directory entry reduced to the attribute `__add_admin_sids` reads,
`entry.single_value.get(ATTR_SID)`. -/
structure SidEntry where
  sid : Option String
deriving DecidableEq

/-- The two entries `__add_admin_sids` may modify. -/
inductive AdminSidTarget
  | adminUser
  | adminsGroup
deriving DecidableEq

/-- A `modify_s` call issued by `__add_admin_sids`: `MOD_ADD` of an
objectclass together with `MOD_ADD` of the SID attribute. -/
structure AdminSidMod where
  target : AdminSidTarget
  objectclass : String
  sid : String
deriving DecidableEq

/-- `__add_admin_sids` (lines 185-241), modelled as the list of `modify_s`
calls it issues given the three entries it looks up (`none` = `NotFound`):
return early with no modification when the Samba domain object is missing,
has no (truthy) SID, or either the admin or the admins-group entry is
missing; otherwise add `dom_sid + "-500"` to the admin entry and
`dom_sid + "-512"` to the admins group, each only when that entry has no
(truthy) SID yet. -/
def add_admin_sids (dom_entry admin_entry admin_group_entry :
    Option SidEntry) : List AdminSidMod :=
  match dom_entry with
  | none => []
  | some dom =>
    match dom.sid with
    | none => []
    | some dom_sid =>
      if dom_sid = "" then []
      else
        match admin_entry with
        | none => []
        | some admin =>
          match admin_group_entry with
          | none => []
          | some admin_group =>
            (if pyTruthy admin.sid then []
             else [⟨.adminUser, "ipaNTUserAttrs", dom_sid ++ "-500"⟩]) ++
            (if pyTruthy admin_group.sid then []
             else [⟨.adminsGroup, "ipaNTGroupAttrs", dom_sid ++ "-512"⟩])

/-- C10: when the domain object carries SID `S` and both entries exist, an
admin entry without a SID receives exactly `S ++ "-500"` (one modification,
and none when it already has a SID), the admins group without a SID receives
exactly `S ++ "-512"` likewise, and nothing at all is modified when the
domain object is missing or has no SID. -/
theorem add_admin_sids_spec (S : String) (hS : S ≠ "")
    (admin admin_group : SidEntry) :
    (∀ a g, add_admin_sids none a g = []) ∧
    (∀ a g, add_admin_sids (some ⟨none⟩) a g = []) ∧
    ((add_admin_sids (some ⟨some S⟩) (some admin)
        (some admin_group)).filter
          (fun m => decide (m.target = .adminUser)) =
      if pyTruthy admin.sid then []
      else [⟨.adminUser, "ipaNTUserAttrs", S ++ "-500"⟩]) ∧
    ((add_admin_sids (some ⟨some S⟩) (some admin)
        (some admin_group)).filter
          (fun m => decide (m.target = .adminsGroup)) =
      if pyTruthy admin_group.sid then []
      else [⟨.adminsGroup, "ipaNTGroupAttrs", S ++ "-512"⟩]) := by
  refine ⟨fun a g => rfl, fun a g => rfl, ?_, ?_⟩ <;>
    simp only [add_admin_sids, if_neg hS] <;>
    rcases pyTruthy admin.sid <;>
    rcases pyTruthy admin_group.sid <;>
    simp

/-- C10 witness: domain SID "S-1-5-21-1-2-3", admin entry without a SID,
admins group already carrying a SID: exactly one modification, assigning
"S-1-5-21-1-2-3-500" to the admin entry. -/
theorem add_admin_sids_spec_witness :
    (add_admin_sids (some ⟨some "S-1-5-21-1-2-3"⟩) (some ⟨none⟩)
        (some ⟨some "S-1-5-21-1-2-3-512"⟩)).filter
          (fun m => decide (m.target = .adminUser)) =
      [⟨.adminUser, "ipaNTUserAttrs", "S-1-5-21-1-2-3-500"⟩] := by
  have h := (add_admin_sids_spec "S-1-5-21-1-2-3" (by decide) ⟨none⟩
    ⟨some "S-1-5-21-1-2-3-512"⟩).2.2.1
  rw [h]
  rfl

/-- C4 witness: the correctness theorem evaluated on "ipa.example.test". -/
theorem make_netbios_name_correct_witness :
    make_netbios_name "ipa.example.test" =
      derive_netbios_spec "ipa.example.test" ∧
    (make_netbios_name "ipa.example.test").length ≤ 15 :=
  make_netbios_name_correct "ipa.example.test"

/-- C9 witness: the validity characterization evaluated on "EXAMPLECORP". -/
theorem check_netbios_name_iff_witness :
    check_netbios_name "EXAMPLECORP" = true ↔
      "EXAMPLECORP".data ≠ [] ∧ "EXAMPLECORP".data.length ≤ 15 ∧
      ∀ c ∈ "EXAMPLECORP".data, specAllowedChar c = true :=
  check_netbios_name_iff "EXAMPLECORP"

/-- C7 witness for the amended theorem: a store holding `running = true` and
no `enabled` record leaves the running flag alone and disables the service. -/
theorem uninstall_oddjobd_restore_witness :
    (uninstall_oddjobd
      (fun _ k => if k = "running" then some true else none)
      ⟨true, true⟩).1.running = true ∧
    (uninstall_oddjobd
      (fun _ k => if k = "running" then some true else none)
      ⟨true, true⟩).1.enabled = false := by
  have h := uninstall_oddjobd_restore
    (fun _ k => if k = "running" then some true else none) ⟨true, true⟩
  exact ⟨by rw [h.1]; decide, by rw [h.2]; decide⟩
